import Mathlib

/-!
Verification development for the cncserver motion/state controller
(src/cncserver.js).  JavaScript numbers are idealised as rationals (the
Euclidean distance, the one square root the program takes, lives in ℝ);
`Math.round` is round-half-up, exactly Mathlib's `round`; `parseInt` of a
non-negative number truncates, i.e. is `Int.floor` there.  The unused
`busy` flag of the pen state is omitted.
-/

namespace CNC

/-- A JavaScript value held in `pen.state`: `setHeight` stores either a
numeric fraction or a preset name string (lines 41, 558-565 of the source). -/
inductive JSVal where
  | num (v : ℚ)
  | str (s : String)
deriving DecidableEq, Repr

/-- JavaScript truthiness of a `JSVal`: `0` is falsy, every other number is
truthy; the empty string is falsy, every other string (including the string
used by the code for the raised preset) is truthy. -/
def jsTruthy : JSVal → Bool
  | .num v => decide (v ≠ 0)
  | .str s => decide (s ≠ "")

/-- A JavaScript number as it can arrive from a request body: NaN, a signed
infinity, or a finite value. -/
inductive JSNum where
  | nan
  | inf (pos : Bool)
  | fin (v : ℚ)
deriving DecidableEq, Repr

/-- An absolute machine-unit position. -/
structure Point where
  x : ℚ
  y : ℚ
deriving DecidableEq, Repr

/-- One line of the EBB wire protocol, as handed to `serialCommand`. -/
inductive Cmd where
  | SC (id : ℤ) (value : ℤ)
  | SP (v : ℤ)
  | SM (duration : ℤ) (stepsX : ℤ) (stepsY : ℤ)
  | EM (a : ℤ) (b : ℤ)
deriving DecidableEq, Repr

/-- The servo part of the bot profile (`servo:min`, `servo:max`,
`servo:presets`, `servo:duration`). -/
structure ServoConf where
  min : ℤ
  max : ℤ
  presets : List (String × ℚ)
  duration : ℤ
deriving DecidableEq, Repr

/-- `p.name` for a preset the code reads directly (`p.up`, `p.paint`);
well-formed profiles define both, a missing entry is modelled as 0. -/
def presetVal (sc : ServoConf) (name : String) : ℚ :=
  (sc.presets.lookup name).getD 0

/-- The bot profile constants the core reads (`BOT` plus the speed and
servo groups of the bot config). -/
structure BotConf where
  workAreaLeft : ℚ
  workAreaTop : ℚ
  maxAreaWidth : ℚ
  maxAreaHeight : ℚ
  speedDrawing : ℚ
  speedMoving : ℚ
  servo : ServoConf
deriving DecidableEq, Repr

/-- The global config fields the core reads (`invertAxis`, `swapMotors`,
`bufferLatencyOffset`). -/
structure GlobalConf where
  invertX : Bool
  invertY : Bool
  swapMotors : Bool
  bufferLatencyOffset : ℤ
deriving DecidableEq, Repr

/-- The mutable pen state record (source lines 38-48, without the never-read
`busy` flag). -/
structure Pen where
  x : ℚ
  y : ℚ
  state : JSVal
  height : ℤ
  tool : String
  lastDuration : ℤ
  distanceCounter : ℝ
  simulation : Bool

/-- The pen state at process start. -/
noncomputable def initialPen : Pen :=
  { x := 0, y := 0, state := .num 0, height := 0, tool := "color0",
    lastDuration := 0, distanceCounter := 0, simulation := false }

/-! ## Serial write boundary (source lines 762-779) -/

/-- `serialCommand`: returns the commands that reach the transport write and
the value passed to the completion callback.  The callback always receives
`true`; a write happens only when not simulating and the port is ready. -/
def serialCommand (simulation ready : Bool) (cmd : Cmd) : List Cmd × Bool :=
  if ¬ready ∧ ¬simulation then ([], true)
  else if ¬simulation then ([cmd], true)
  else ([], true)

/-- The bytes that reach the transport for a whole sequence of issued
commands, each passed through `serialCommand`. -/
def transportWrites (simulation ready : Bool) : List Cmd → List Cmd
  | [] => []
  | c :: rest => (serialCommand simulation ready c).1 ++ transportWrites simulation ready rest

/-! ## Coordinate mapper (source lines 506-517) -/

/-- The percentage sanity clamp of `setPen` (lines 507-511): first cap
above at 100, then below at 0. -/
def sanitizePct (v : ℚ) : ℚ :=
  let v1 := if v > 100 then 100 else v
  if v1 < 0 then 0 else v1

/-- Percentage-to-absolute conversion (lines 506-517): clamp each input to
[0,100], then map linearly over `[workArea, maxArea]`. -/
def toAbsolute (b : BotConf) (px py : ℚ) : Point :=
  { x := b.workAreaLeft + sanitizePct px / 100 * (b.maxAreaWidth - b.workAreaLeft),
    y := b.workAreaTop + sanitizePct py / 100 * (b.maxAreaHeight - b.workAreaTop) }

/-! ## Height mapper (source lines 543-612) -/

/-- `setHeight`'s height resolution (lines 544-584): returns the rounded
servo value and the value stored into `pen.state`.  A string input takes the
textual branch (preset names are non-numeric, so `parseInt` yields NaN
there); a numeric input takes its absolute value, is capped at 1, inverted
and truncated to a tenth of a percent, and maps over the compressed
`[paint, up]` range. -/
def resolveHeight (sc : ServoConf) (input : JSVal) : ℤ × JSVal :=
  let min0 : ℚ := (sc.min : ℚ)
  let max0 : ℚ := (sc.max : ℚ)
  let range0 : ℚ := max0 - min0
  let res : ℚ × JSVal × Bool :=
    match input with
    | .str name =>
      match sc.presets.lookup name with
      | some v => (v, .str name, true)
      | none => (presetVal sc "up", .str "up", true)
    | .num v =>
      let h1 : ℚ := if |v| > 1 then 1 else |v|
      (((⌊(1 - h1) * 1000⌋ : ℤ) : ℚ) / 10, .num h1, false)
  let h : ℚ := res.1
  let stateValue : JSVal := res.2.1
  let fullRange : Bool := res.2.2
  let minv : ℚ := if fullRange then min0 else presetVal sc "paint" / 100 * range0 + min0
  let maxv : ℚ := if fullRange then max0 else presetVal sc "up" / 100 * range0 + min0
  let range : ℚ := maxv - minv
  let h2 : ℚ := sanitizePct h
  (round (h2 / 100 * range + minv), stateValue)

/-- The pro-rated servo settle duration (lines 587-591): scaled by the height
change over the full range, plus one, whenever the stored height is truthy. -/
def proRateDuration (sc : ServoConf) (penHeight newHeight : ℤ) : ℤ :=
  if penHeight ≠ 0 then
    round ((|newHeight - penHeight| : ℚ) / ((sc.max : ℚ) - (sc.min : ℚ)) * (sc.duration : ℚ)) + 1
  else sc.duration

/-- The result of one `setHeight` call: the new pen state, the commands
handed to `serialCommand`, the value the completion callback receives, and
the pacing delay before it fires. -/
structure HeightResult where
  pen : Pen
  cmds : List Cmd
  cbVal : Bool
  delay : ℤ

/-- `setHeight` (lines 543-612): resolve the servo value, pro-rate the
duration, store height and state, then issue `SC,5`, `SP,0` and the
buffer-blocking zero move; the callback fires with the (always `true`)
serial data after `max(servoDuration - bufferLatencyOffset, 0)`. -/
noncomputable def setHeight (g : GlobalConf) (b : BotConf) (pen : Pen) (input : JSVal) :
    HeightResult :=
  let r := resolveHeight b.servo input
  let height := r.1
  let stateValue := r.2
  let servoDuration := proRateDuration b.servo pen.height height
  let pen' := { pen with height := height, state := stateValue }
  { pen := pen',
    cmds := [.SC 5 height, .SP 0, .SM servoDuration 0 0],
    cbVal := true,
    delay := max (servoDuration - g.bufferLatencyOffset) 0 }

/-! ## Motion planner (source lines 645-713) -/

/-- The result of one `movePenAbs` call: the new pen state, the commands
handed to `serialCommand`, the value the completion callback receives, and
the returned scalar distance. -/
structure MoveResult where
  pen : Pen
  cmds : List Cmd
  cbVal : Bool
  dist : ℝ

/-- The target sanity clamp of `movePenAbs` (lines 655-659): each coordinate
capped above by the max area and below by 0. -/
def clampTarget (b : BotConf) (pt : Point) : Point :=
  let px0 := if pt.x > b.maxAreaWidth then b.maxAreaWidth else pt.x
  let px := if px0 < 0 then 0 else px0
  let py0 := if pt.y > b.maxAreaHeight then b.maxAreaHeight else pt.y
  let py := if py0 < 0 then 0 else py0
  ⟨px, py⟩

/-- The rounded step delta of `movePenAbs` (lines 661-664). -/
def moveChange (b : BotConf) (pen : Pen) (pt : Point) : ℤ × ℤ :=
  (round ((clampTarget b pt).x - pen.x), round ((clampTarget b pt).y - pen.y))

/-- `movePenAbs` (lines 645-713): clamp the target into `[0, maxArea]`,
round the delta, succeed with distance 0 on a zero delta, otherwise compute
the Euclidean distance and the duration (floored to 1), update the pen
position to the clamped target, invert/swap the step delta, and issue the
`SM` command.  The `isNaN` guard of line 648 is handled in the `setPen`
embedding, where NaN inputs live; rational-valued points here are never NaN. -/
noncomputable def movePenAbs (g : GlobalConf) (b : BotConf) (pen : Pen) (pt : Point) :
    MoveResult :=
  let c := moveChange b pen pt
  if c.1 = 0 ∧ c.2 = 0 then
    { pen := pen, cmds := [], cbVal := true, dist := 0 }
  else
    let dist : ℝ := Real.sqrt ((c.1 : ℝ) ^ 2 + (c.2 : ℝ) ^ 2)
    let speed : ℚ := if jsTruthy pen.state then b.speedDrawing else b.speedMoving
    let dur0 : ℤ := |round (dist / (speed : ℝ) * 1000)|
    let duration : ℤ := if dur0 = 0 then 1 else dur0
    let pen' :=
      { pen with
        x := (clampTarget b pt).x
        y := (clampTarget b pt).y
        lastDuration := duration }
    let cx1 : ℤ := if g.invertX then -c.1 else c.1
    let cy1 : ℤ := if g.invertY then -c.2 else c.2
    let sx : ℤ := if g.swapMotors then cy1 else cx1
    let sy : ℤ := if g.swapMotors then cx1 else cy1
    { pen := pen', cmds := [.SM duration sx sy], cbVal := true, dist := dist }

/-! ## setPen (source lines 457-539) -/

/-- A `setPen` request body, with `undefined` fields as `none`; the two
coordinates may be NaN or infinite as they come from the outside. -/
structure PenRequest where
  resetCounter : Bool
  simulation : Option Bool
  state : Option JSVal
  x : Option JSNum
  y : Option JSNum
  park : Bool
  ignoreTimeout : Bool

/-- What a `setPen` call does besides mutating the pen and issuing commands:
invoke its callback, hand off to `connectSerial`, delegate to `setHeight`,
or (when enabling simulation) return with no callback at all. -/
inductive SetPenOutcome where
  | callback (b : Bool)
  | connectSerial
  | heightDelegate (h : JSVal)
  | silent
deriving DecidableEq, Repr

/-- The result of one `setPen` call. -/
structure SetPenResult where
  pen : Pen
  cmds : List Cmd
  outcome : SetPenOutcome

/-- JavaScript loose equality between the values `pen.state` takes: numbers
compare numerically, strings by content; a preset-name string coerced to a
number is NaN and therefore loosely equal to no number. -/
def jsLooseEq : JSVal → JSVal → Bool
  | .num a, .num b => decide (a = b)
  | .str a, .str b => decide (a = b)
  | _, _ => false

/-- The absolute-position tail of `setPen` (lines 497-538).  The first match
arm is the fall-through `callback(true)` of line 538; the last arm is the
NaN / non-finite guard of lines 501-504 (`isNaN(undefined)` is true, so a
missing `y` also fails there). -/
noncomputable def setPenPosition (g : GlobalConf) (b : BotConf) (pen : Pen)
    (req : PenRequest) : SetPenResult :=
  match req.x, req.y with
  | none, _ => { pen := pen, cmds := [], outcome := .callback true }
  | some (.fin xq), some (.fin yq) =>
    let absIn0 := toAbsolute b xq yq
    let absIn := if req.park then
        { x := absIn0.x - b.workAreaLeft, y := absIn0.y - b.workAreaTop }
      else absIn0
    if req.park ∧ pen.x = 0 ∧ pen.y = 0 then
      { pen := pen, cmds := [], outcome := .callback false }
    else
      let mr := movePenAbs g b pen absIn
      let pen' := if jsTruthy mr.pen.state then
          { mr.pen with distanceCounter := mr.dist + mr.pen.distanceCounter }
        else mr.pen
      { pen := pen', cmds := mr.cmds, outcome := .callback mr.cbVal }
  | some _, _ => { pen := pen, cmds := [], outcome := .callback false }

/-- `setPen` (lines 457-539): counter reset first, then the simulation
toggle, then a height change for a differing `state`, then the position
fields. -/
noncomputable def setPen (g : GlobalConf) (b : BotConf) (pen : Pen) (req : PenRequest) :
    SetPenResult :=
  if req.resetCounter then
    { pen := { pen with distanceCounter := 0 }, cmds := [], outcome := .callback true }
  else
    match req.simulation with
    | some s =>
      if s = pen.simulation then { pen := pen, cmds := [], outcome := .callback true }
      else if s = false then { pen := pen, cmds := [], outcome := .connectSerial }
      else { pen := { pen with simulation := true }, cmds := [], outcome := .silent }
    | none =>
      match req.state with
      | some st =>
        if jsLooseEq st pen.state then setPenPosition g b pen req
        else { pen := pen, cmds := [], outcome := .heightDelegate st }
      | none => setPenPosition g b pen req

/-! ## Oscillation pattern (source lines 716-758) -/

/-- The wiggle axis selector of a tool profile. -/
inductive WiggleAxis where
  | x
  | y
  | xy
deriving DecidableEq, Repr

/-- The point `_wiggleSlave` hands to `movePenAbs` at step `i` with the
given toggle (lines 725-746). -/
def wigglePoint (axis : WiggleAxis) (start : Point) (travel : ℚ) (i : ℕ) (toggle : Bool) :
    Point :=
  match axis with
  | .xy =>
    let rot := i % 4
    if rot % 3 ≠ 0 then
      if toggle then { start with y := start.y + travel / 2 }
      else { start with x := start.x - travel }
    else
      if toggle then { start with y := start.y - travel / 2 }
      else { start with x := start.x + travel }
  | .x => { start with x := start.x + (if toggle then travel else -travel) }
  | .y => { start with y := start.y + (if toggle then travel else -travel) }

/-- The sequence of points `_wiggleSlave` emits through `movePenAbs` from
step `i` on: one wiggle point per step, the toggle flipping each step, and
after the last step (`i` reaching `iterations`) the move back to `start`
(lines 748-756). -/
def wiggleSlave (axis : WiggleAxis) (start : Point) (travel : ℚ) (iterations i : ℕ)
    (toggle : Bool) : List Point :=
  wigglePoint axis start travel i toggle ::
    (if _h : i < iterations then
      wiggleSlave axis start travel iterations (i + 1) (!toggle)
    else [start])
termination_by iterations - i

/-- `wigglePen` (lines 716-758): capture the start position, then run
`_wiggleSlave` from `i = 0` with the toggle initially true. -/
def wigglePen (axis : WiggleAxis) (start : Point) (travel : ℚ) (iterations : ℕ) :
    List Point :=
  wiggleSlave axis start travel iterations 0 true

/-! ## Concrete test profile (watercolorbot-shaped numbers) -/

/-- A concrete servo profile: range [0,1000], presets up=70, paint=30,
wash=40, duration 300. -/
def testServo : ServoConf :=
  { min := 0, max := 1000,
    presets := [("up", 70), ("paint", 30), ("wash", 40)], duration := 300 }

/-- A concrete bot profile: work area starting at the origin, 100×100 max
area, speeds 1000. -/
def testBot : BotConf :=
  { workAreaLeft := 0, workAreaTop := 0, maxAreaWidth := 100, maxAreaHeight := 100,
    speedDrawing := 1000, speedMoving := 1000, servo := testServo }

/-- A concrete global config: no inversion, no swap, 50 ms pacing offset. -/
def testGlobal : GlobalConf :=
  { invertX := false, invertY := false, swapMotors := false, bufferLatencyOffset := 50 }

/-! ## Helper lemmas -/

theorem sanitizePct_nonneg (v : ℚ) : 0 ≤ sanitizePct v := by
  simp only [sanitizePct]
  split_ifs <;> linarith

theorem sanitizePct_le_100 (v : ℚ) : sanitizePct v ≤ 100 := by
  simp only [sanitizePct]
  split_ifs <;> linarith

theorem sanitizePct_mono {v w : ℚ} (h : v ≤ w) : sanitizePct v ≤ sanitizePct w := by
  simp only [sanitizePct]
  split_ifs <;> linarith

theorem sanitizePct_eq_self {v : ℚ} (h0 : 0 ≤ v) (h1 : v ≤ 100) : sanitizePct v = v := by
  simp only [sanitizePct]
  split_ifs <;> linarith

/-- A rounded value between two integer bounds stays between them. -/
theorem round_int_bounds {lo hi : ℤ} {x : ℚ} (h1 : (lo : ℚ) ≤ x) (h2 : x ≤ (hi : ℚ)) :
    lo ≤ round x ∧ round x ≤ hi := by
  rw [round_eq]
  refine ⟨Int.le_floor.2 (by linarith), ?_⟩
  have h : (⌊x + 1 / 2⌋ : ℤ) < hi + 1 := Int.floor_lt.2 (by push_cast; linarith)
  omega

/-- A convex combination of two values of an interval stays in the interval. -/
theorem convex_combo_mem {lo hi a c t : ℚ} (ha : lo ≤ a) (ha2 : a ≤ hi)
    (hc : lo ≤ c) (hc2 : c ≤ hi) (ht : 0 ≤ t) (ht2 : t ≤ 1) :
    lo ≤ t * (c - a) + a ∧ t * (c - a) + a ≤ hi := by
  constructor
  · nlinarith [mul_nonneg ht (sub_nonneg.2 hc),
      mul_nonneg (sub_nonneg.2 ht2) (sub_nonneg.2 ha)]
  · nlinarith [mul_nonneg ht (sub_nonneg.2 hc2),
      mul_nonneg (sub_nonneg.2 ht2) (sub_nonneg.2 ha2)]

theorem wiggleSlave_length (axis : WiggleAxis) (start : Point) (travel : ℚ) :
    ∀ (d iterations i : ℕ) (toggle : Bool), iterations - i = d →
      (wiggleSlave axis start travel iterations i toggle).length = (iterations - i) + 2 := by
  intro d
  induction d with
  | zero =>
    intro iterations i toggle hd
    rw [wiggleSlave]
    have hni : ¬ i < iterations := by omega
    simp [hni, hd]
  | succ d ih =>
    intro iterations i toggle hd
    rw [wiggleSlave]
    have hi : i < iterations := by omega
    have := ih iterations (i + 1) (!toggle) (by omega)
    simp only [hi, dif_pos, List.length_cons, this]
    omega

theorem wigglePen_length (axis : WiggleAxis) (start : Point) (travel : ℚ) (iterations : ℕ) :
    (wigglePen axis start travel iterations).length = iterations + 2 := by
  have := wiggleSlave_length axis start travel iterations iterations 0 true (by omega)
  simpa [wigglePen] using this

theorem wiggleSlave_getLast (axis : WiggleAxis) (start : Point) (travel : ℚ) :
    ∀ (d iterations i : ℕ) (toggle : Bool), iterations - i = d →
      (wiggleSlave axis start travel iterations i toggle).getLast? = some start := by
  intro d
  induction d with
  | zero =>
    intro iterations i toggle hd
    rw [wiggleSlave]
    have hni : ¬ i < iterations := by omega
    simp [hni]
  | succ d ih =>
    intro iterations i toggle hd
    rw [wiggleSlave]
    have hi : i < iterations := by omega
    have htail := ih iterations (i + 1) (!toggle) (by omega)
    rw [dif_pos hi]
    rw [List.getLast?_cons, htail]
    simp

theorem wiggleSlave_get (axis : WiggleAxis) (start : Point) (travel : ℚ) :
    ∀ (k iterations i : ℕ) (toggle : Bool), i + k ≤ iterations →
      (wiggleSlave axis start travel iterations i toggle).get? k =
        some (wigglePoint axis start travel (i + k) (xor toggle (decide (k % 2 = 1)))) := by
  intro k
  induction k with
  | zero =>
    intro iterations i toggle _
    rw [wiggleSlave]
    simp
  | succ k ih =>
    intro iterations i toggle hk
    rw [wiggleSlave]
    have hi : i < iterations := by omega
    rw [dif_pos hi]
    have := ih iterations (i + 1) (!toggle) (by omega)
    rw [List.get?_cons_succ, this]
    congr 2
    · omega
    · rcases Nat.mod_two_eq_zero_or_one k with h | h <;>
        simp [h, Nat.succ_mod_two_eq_one_iff, Nat.succ_mod_two_eq_zero_iff]

theorem one_le_floored (d0 : ℤ) (h : 0 ≤ d0) : 1 ≤ (if d0 = 0 then 1 else d0) := by
  split_ifs with h1 <;> omega

/-- Check of an issued command: an SM carries a duration of at least 1. -/
def Cmd.durationOK : Cmd → Bool
  | .SM d _ _ => decide (1 ≤ d)
  | _ => true

/-! ## Claim C2 -/

/-- C2 counterexample: with iterations = 0 the oscillation pattern issues 2
position emissions through the motion planner, not 0 + 1: the claimed count
of N + 1 emissions is wrong. -/
theorem wigglePen_count_cex : (wigglePen .x ⟨0, 0⟩ 1 0).length ≠ 0 + 1 := by
  rw [wigglePen_length]
  omega

/-- C2 (amended): for every axis, start position, travel and iteration count
N, the oscillation pattern issues exactly N + 2 position emissions through
the motion planner (N + 1 wiggle offsets, then the final return move), and
the final emission equals the exact starting position. -/
theorem wigglePen_emissions (axis : WiggleAxis) (start : Point) (travel : ℚ)
    (iterations : ℕ) :
    (wigglePen axis start travel iterations).length = iterations + 2 ∧
    (wigglePen axis start travel iterations).getLast? = some start :=
  ⟨wigglePen_length axis start travel iterations,
   by simpa [wigglePen] using
     wiggleSlave_getLast axis start travel (iterations - 0) iterations 0 true rfl⟩

/-! ## Claim C3 -/

/-- C3 counterexample: the first emission of a two-axis wiggle has step
index 0, so rot = 0 is even, and the claim demands a full-travel horizontal
offset there; the code instead offsets the vertical axis by half the travel
(start (0,0), travel 2 gives (0,-1)). -/
theorem wigglePen_xy_cex : (wigglePen .xy ⟨0, 0⟩ 2 3).get? 0 = some ⟨0, -1⟩ := by
  have h := wiggleSlave_get .xy ⟨0, 0⟩ 2 0 3 0 true (by omega)
  rw [wigglePen, h]
  simp [wigglePoint]

/-- C3 (amended): in two-axis mode the step parity (equivalently the toggle,
which starts true and flips every step) chooses the axis, not the parity of
rot: an even step (toggle true) offsets the vertical axis by half the
travel, an odd step (toggle false) offsets the horizontal axis by the full
travel, and rot = i mod 4 chooses the sign (rot ∈ {1,2}: down/left,
rot ∈ {0,3}: up/right). -/
theorem wigglePen_xy_pattern (start : Point) (travel : ℚ) (iterations k : ℕ)
    (hk : k ≤ iterations) :
    (wigglePen .xy start travel iterations).get? k =
      some (if k % 2 = 0 then
        { start with y := start.y + (if k % 4 = 0 then -(travel / 2) else travel / 2) }
      else
        { start with x := start.x + (if k % 4 = 1 then -travel else travel) }) := by
  have h := wiggleSlave_get .xy start travel k iterations 0 true (by omega)
  rw [wigglePen, h]
  have h4 : k % 4 = 0 ∨ k % 4 = 1 ∨ k % 4 = 2 ∨ k % 4 = 3 := by omega
  rcases h4 with h4 | h4 | h4 | h4
  · have h2 : k % 2 = 0 := by omega
    simp [wigglePoint, h4, h2, sub_eq_add_neg]
  · have h2 : k % 2 = 1 := by omega
    simp [wigglePoint, h4, h2, sub_eq_add_neg]
  · have h2 : k % 2 = 0 := by omega
    simp [wigglePoint, h4, h2]
  · have h2 : k % 2 = 1 := by omega
    simp [wigglePoint, h4, h2]

/-- C3 witness: the pattern theorem at start (10,20), travel 2, N = 3,
k = 1: an odd step offsets the horizontal axis by the full travel to the
left, giving (8,20). -/
theorem wigglePen_xy_pattern_witness :
    (wigglePen .xy ⟨10, 20⟩ 2 3)[1]? = some ⟨8, 20⟩ := by
  have h := wigglePen_xy_pattern ⟨10, 20⟩ 2 3 1 (by omega)
  norm_num at h
  exact h

/-! ## Claim C5 -/

/-- C5: every command the motion planner hands to the serial layer is an SM
whose computed duration is at least 1 ms (the rounded duration is floored to
1 before the command is built), so a zero-duration SM command is never sent,
however small the distance. -/
theorem movePenAbs_duration_ge_one (g : GlobalConf) (b : BotConf) (pen : Pen)
    (pt : Point) : ((movePenAbs g b pen pt).cmds.all Cmd.durationOK) = true := by
  simp only [movePenAbs]
  by_cases hc : (moveChange b pen pt).1 = 0 ∧ (moveChange b pen pt).2 = 0
  · rw [if_pos hc]
    rfl
  · rw [if_neg hc]
    simp only [List.all_cons, List.all_nil, Bool.and_true, Cmd.durationOK,
      decide_eq_true_eq]
    exact one_le_floored _ (abs_nonneg _)

/-! ## Claim C8 -/

/-- C8: with the simulation flag true no command reaches the transport
write boundary — neither a single `serialCommand` nor any sequence of issued
commands — and the completion callbacks still report success: the serial
callback, the motion planner's and the height controller's all receive
`true`. -/
theorem simulation_mode_noop (ready : Bool) (c : Cmd) (cmds : List Cmd)
    (g : GlobalConf) (b : BotConf) (pen : Pen) (pt : Point) (input : JSVal) :
    serialCommand true ready c = ([], true) ∧
    transportWrites true ready cmds = [] ∧
    (movePenAbs g b pen pt).cbVal = true ∧
    (setHeight g b pen input).cbVal = true := by
  refine ⟨by simp [serialCommand], ?_, ?_, rfl⟩
  · induction cmds with
    | nil => rfl
    | cons c0 rest ih => simp [transportWrites, serialCommand, ih]
  · simp only [movePenAbs]
    by_cases hc : (moveChange b pen pt).1 = 0 ∧ (moveChange b pen pt).2 = 0
    · rw [if_pos hc]
    · rw [if_neg hc]

/-! ## Claim C4 -/

/-- C4: the percentage-to-absolute conversion clamps each input to [0,100]
and maps it linearly (that formula is the definition of `toAbsolute`); when
the work-area origin lies inside the max area, every output lies within
`[workArea, maxArea]` inclusive — for the claimed inputs in [0,100]² and in
fact for all inputs — and each output coordinate is monotone in its own
input percentage. -/
theorem toAbsolute_bounds_mono (b : BotConf)
    (hx : b.workAreaLeft ≤ b.maxAreaWidth) (hy : b.workAreaTop ≤ b.maxAreaHeight) :
    (∀ px py, b.workAreaLeft ≤ (toAbsolute b px py).x ∧
      (toAbsolute b px py).x ≤ b.maxAreaWidth ∧
      b.workAreaTop ≤ (toAbsolute b px py).y ∧
      (toAbsolute b px py).y ≤ b.maxAreaHeight) ∧
    (∀ px qx py, px ≤ qx → (toAbsolute b px py).x ≤ (toAbsolute b qx py).x) ∧
    (∀ px py qy, py ≤ qy → (toAbsolute b px py).y ≤ (toAbsolute b px qy).y) := by
  refine ⟨?_, ?_, ?_⟩
  · intro px py
    have h0x := sanitizePct_nonneg px
    have h1x := sanitizePct_le_100 px
    have h0y := sanitizePct_nonneg py
    have h1y := sanitizePct_le_100 py
    have hwx := sub_nonneg.2 hx
    have hwy := sub_nonneg.2 hy
    simp only [toAbsolute]
    refine ⟨?_, ?_, ?_, ?_⟩
    · nlinarith [mul_nonneg h0x hwx]
    · nlinarith [mul_nonneg (by linarith : (0:ℚ) ≤ 100 - sanitizePct px) hwx]
    · nlinarith [mul_nonneg h0y hwy]
    · nlinarith [mul_nonneg (by linarith : (0:ℚ) ≤ 100 - sanitizePct py) hwy]
  · intro px qx py hpq
    have hmono := sanitizePct_mono hpq
    have hwx := sub_nonneg.2 hx
    simp only [toAbsolute]
    nlinarith [mul_nonneg (sub_nonneg.2 hmono) hwx]
  · intro px py qy hpq
    have hmono := sanitizePct_mono hpq
    have hwy := sub_nonneg.2 hy
    simp only [toAbsolute]
    nlinarith [mul_nonneg (sub_nonneg.2 hmono) hwy]

/-- C4 witness: the bounds-and-monotonicity theorem applied at the concrete
test profile, input (50,50) for the bounds and 25 ≤ 75 for monotonicity. -/
theorem toAbsolute_bounds_mono_witness :
    testBot.workAreaLeft ≤ testBot.maxAreaWidth ∧
    testBot.workAreaTop ≤ testBot.maxAreaHeight ∧
    testBot.workAreaLeft ≤ (toAbsolute testBot 50 50).x ∧
    (toAbsolute testBot 25 0).x ≤ (toAbsolute testBot 75 0).x :=
  ⟨by norm_num [testBot], by norm_num [testBot],
   ((toAbsolute_bounds_mono testBot (by norm_num [testBot])
      (by norm_num [testBot])).1 50 50).1,
   (toAbsolute_bounds_mono testBot (by norm_num [testBot])
      (by norm_num [testBot])).2.1 25 75 0 (by norm_num)⟩

/-! ## Claim C7 -/

/-- C7 counterexample: a negative numeric height input is not clamped to
[0,1]: the code takes the absolute value before capping at 1, so -1
resolves like 1 — the compressed paint boundary (300 on the test profile) —
whereas clamping to [0,1] would make it resolve like 0, the up boundary
(700). -/
theorem resolveHeight_clamp_cex :
    (resolveHeight testServo (.num (-1))).1 = 300 ∧
    (resolveHeight testServo (.num 0)).1 = 700 ∧
    (resolveHeight testServo (.num (-1))).1 ≠ (resolveHeight testServo (.num 0)).1 := by
  have hu : List.lookup "up" testServo.presets = some 70 := rfl
  have hp : List.lookup "paint" testServo.presets = some 30 := rfl
  refine ⟨?_, ?_, ?_⟩ <;>
    · simp only [resolveHeight, presetVal, hu, hp, Option.getD_some]
      norm_num [testServo, sanitizePct]

/-- C7 (amended): for every height input the resolved servo value lies
within [servo.min, servo.max]; an unknown preset name resolves as the "up"
preset; a numeric input is replaced by its absolute value and capped at 1
(inputs in [0,1] unchanged; a negative input acts like its magnitude, not
like 0), then mapped, after the 1-value inversion, over the compressed
[paint, up] range, so input 0 resolves exactly like the "up" preset and
input 1 exactly like the compressed "paint" boundary, i.e. the "paint"
preset. -/
theorem resolveHeight_range_boundaries (sc : ServoConf) (u pv : ℚ)
    (hmm : sc.min ≤ sc.max)
    (hu : sc.presets.lookup "up" = some u) (hu0 : 0 ≤ u) (hu1 : u ≤ 100)
    (hp : sc.presets.lookup "paint" = some pv) (hp0 : 0 ≤ pv) (hp1 : pv ≤ 100) :
    (∀ input, sc.min ≤ (resolveHeight sc input).1 ∧ (resolveHeight sc input).1 ≤ sc.max) ∧
    (∀ name, sc.presets.lookup name = none →
      resolveHeight sc (.str name) = resolveHeight sc (.str "up")) ∧
    (∀ v : ℚ,
      resolveHeight sc (.num v) = resolveHeight sc (.num (if |v| > 1 then 1 else |v|))) ∧
    (resolveHeight sc (.num 0)).1 = (resolveHeight sc (.str "up")).1 ∧
    (resolveHeight sc (.num 1)).1 = (resolveHeight sc (.str "paint")).1 := by
  have hmq : ((sc.min : ℤ) : ℚ) ≤ ((sc.max : ℤ) : ℚ) := by exact_mod_cast hmm
  have hr0 : (0 : ℚ) ≤ (sc.max : ℚ) - (sc.min : ℚ) := by linarith
  have hpu : presetVal sc "up" = u := by simp [presetVal, hu]
  have hpp : presetVal sc "paint" = pv := by simp [presetVal, hp]
  have keyFull : ∀ hq : ℚ,
      sc.min ≤ round (sanitizePct hq / 100 * ((sc.max : ℚ) - (sc.min : ℚ)) + (sc.min : ℚ)) ∧
      round (sanitizePct hq / 100 * ((sc.max : ℚ) - (sc.min : ℚ)) + (sc.min : ℚ)) ≤ sc.max := by
    intro hq
    have h0 := sanitizePct_nonneg hq
    have h1 := sanitizePct_le_100 hq
    have ht : 0 ≤ sanitizePct hq / 100 := by positivity
    have ht2 : sanitizePct hq / 100 ≤ 1 := by linarith
    have hc := convex_combo_mem (le_refl ((sc.min : ℤ) : ℚ)) hmq hmq
      (le_refl ((sc.max : ℤ) : ℚ)) ht ht2
    exact round_int_bounds hc.1 hc.2
  have hlo : ((sc.min : ℤ) : ℚ) ≤ pv / 100 * ((sc.max : ℚ) - (sc.min : ℚ)) + (sc.min : ℚ) := by
    nlinarith [mul_nonneg hp0 hr0]
  have hlo2 : pv / 100 * ((sc.max : ℚ) - (sc.min : ℚ)) + (sc.min : ℚ) ≤ ((sc.max : ℤ) : ℚ) := by
    nlinarith [mul_nonneg (by linarith : (0 : ℚ) ≤ 100 - pv) hr0]
  have hhi : ((sc.min : ℤ) : ℚ) ≤ u / 100 * ((sc.max : ℚ) - (sc.min : ℚ)) + (sc.min : ℚ) := by
    nlinarith [mul_nonneg hu0 hr0]
  have hhi2 : u / 100 * ((sc.max : ℚ) - (sc.min : ℚ)) + (sc.min : ℚ) ≤ ((sc.max : ℤ) : ℚ) := by
    nlinarith [mul_nonneg (by linarith : (0 : ℚ) ≤ 100 - u) hr0]
  have keyComp : ∀ hq : ℚ,
      sc.min ≤ round (sanitizePct hq / 100 *
        ((u / 100 * ((sc.max : ℚ) - (sc.min : ℚ)) + (sc.min : ℚ)) -
          (pv / 100 * ((sc.max : ℚ) - (sc.min : ℚ)) + (sc.min : ℚ))) +
        (pv / 100 * ((sc.max : ℚ) - (sc.min : ℚ)) + (sc.min : ℚ))) ∧
      round (sanitizePct hq / 100 *
        ((u / 100 * ((sc.max : ℚ) - (sc.min : ℚ)) + (sc.min : ℚ)) -
          (pv / 100 * ((sc.max : ℚ) - (sc.min : ℚ)) + (sc.min : ℚ))) +
        (pv / 100 * ((sc.max : ℚ) - (sc.min : ℚ)) + (sc.min : ℚ))) ≤ sc.max := by
    intro hq
    have h0 := sanitizePct_nonneg hq
    have h1 := sanitizePct_le_100 hq
    have ht : 0 ≤ sanitizePct hq / 100 := by positivity
    have ht2 : sanitizePct hq / 100 ≤ 1 := by linarith
    have hc := convex_combo_mem hlo hlo2 hhi hhi2 ht ht2
    exact round_int_bounds hc.1 hc.2
  refine ⟨?_, ?_, ?_, ?_, ?_⟩
  · intro input
    cases input with
    | num v =>
      simp only [resolveHeight, hpu, hpp]
      exact keyComp _
    | str name =>
      cases hlook : sc.presets.lookup name with
      | some w =>
        simp only [resolveHeight, hlook]
        exact keyFull _
      | none =>
        simp only [resolveHeight, hlook, hpu]
        exact keyFull _
  · intro name hname
    simp only [resolveHeight, hname, hu, presetVal, Option.getD_some]
  · intro v
    have h1nn : (0 : ℚ) ≤ if |v| > 1 then 1 else |v| := by
      split_ifs
      · norm_num
      · exact abs_nonneg v
    have h1le : (if |v| > 1 then 1 else |v|) ≤ 1 := by
      split_ifs with hh
      · exact le_refl 1
      · linarith [not_lt.1 hh]
    simp only [resolveHeight]
    rw [abs_of_nonneg h1nn, if_neg (not_lt.2 h1le)]
  · have e0 : (if |(0 : ℚ)| > 1 then 1 else |(0 : ℚ)|) = 0 := by norm_num
    have efloor : ((⌊(1 - (0 : ℚ)) * 1000⌋ : ℤ) : ℚ) / 10 = 100 := by norm_num
    simp only [resolveHeight, hpu, hpp, hu, e0, efloor, Bool.false_eq_true, if_false,
      eq_self_iff_true, if_true]
    rw [sanitizePct_eq_self hu0 hu1,
      sanitizePct_eq_self (by norm_num : (0 : ℚ) ≤ 100) (le_refl (100 : ℚ))]
    congr 1
    ring
  · have e1 : (if |(1 : ℚ)| > 1 then 1 else |(1 : ℚ)|) = 1 := by norm_num
    have efloor : ((⌊(1 - (1 : ℚ)) * 1000⌋ : ℤ) : ℚ) / 10 = 0 := by norm_num
    simp only [resolveHeight, hpu, hpp, hp, e1, efloor, Bool.false_eq_true, if_false,
      eq_self_iff_true, if_true]
    rw [sanitizePct_eq_self hp0 hp1,
      sanitizePct_eq_self (le_refl (0 : ℚ)) (by norm_num : (0 : ℚ) ≤ 100)]
    congr 1
    ring

/-- C7 witness: the amended theorem at the concrete test profile: the value
for input 1/2 is in range, the unknown preset "glitter" resolves like "up",
and input 0 hits the up boundary. -/
theorem resolveHeight_range_boundaries_witness :
    testServo.min ≤ (resolveHeight testServo (.num (1/2))).1 ∧
    (resolveHeight testServo (.num (1/2))).1 ≤ testServo.max ∧
    resolveHeight testServo (.str "glitter") = resolveHeight testServo (.str "up") ∧
    (resolveHeight testServo (.num 0)).1 = (resolveHeight testServo (.str "up")).1 := by
  have h := resolveHeight_range_boundaries testServo 70 30 (by norm_num [testServo]) rfl
    (by norm_num) (by norm_num) rfl (by norm_num) (by norm_num)
  exact ⟨(h.1 (.num (1/2))).1, (h.1 (.num (1/2))).2, h.2.1 "glitter" rfl, h.2.2.2.1⟩

/-! ## setPen dispatch -/

/-- With no counter reset, no simulation field and no differing state, a
`setPen` call is handled by its absolute-position tail. -/
theorem setPen_toPosition (g : GlobalConf) (b : BotConf) (pen : Pen) (req : PenRequest)
    (hr : req.resetCounter = false) (hs : req.simulation = none)
    (hst : ∀ st, req.state = some st → jsLooseEq st pen.state = true) :
    setPen g b pen req = setPenPosition g b pen req := by
  simp only [setPen, hr, hs, Bool.false_eq_true, if_false]
  cases hq : req.state with
  | none => rfl
  | some st => simp [hst st hq]

/-! ## Claim C9 -/

/-- C9: `setPen` handles at most one aspect of a request, with fixed
precedence: a set `resetCounter` only zeroes the distance counter and
reports success, whatever else the request carries; otherwise a present
`simulation` field only toggles simulation (an unchanged value reports
success, turning it off hands over to `connectSerial`, turning it on is
silent); otherwise a present, differing `state` only delegates to the
height controller; otherwise the position fields are handled. -/
theorem setPen_precedence (g : GlobalConf) (b : BotConf) (pen : Pen) (req : PenRequest) :
    (req.resetCounter = true →
      setPen g b pen req =
        { pen := { pen with distanceCounter := 0 }, cmds := [],
          outcome := .callback true }) ∧
    (req.resetCounter = false → ∀ s, req.simulation = some s →
      setPen g b pen req =
        if s = pen.simulation then { pen := pen, cmds := [], outcome := .callback true }
        else if s = false then { pen := pen, cmds := [], outcome := .connectSerial }
        else { pen := { pen with simulation := true }, cmds := [], outcome := .silent }) ∧
    (req.resetCounter = false → req.simulation = none → ∀ st, req.state = some st →
      jsLooseEq st pen.state = false →
      setPen g b pen req = { pen := pen, cmds := [], outcome := .heightDelegate st }) ∧
    (req.resetCounter = false → req.simulation = none →
      (∀ st, req.state = some st → jsLooseEq st pen.state = true) →
      setPen g b pen req = setPenPosition g b pen req) := by
  refine ⟨?_, ?_, ?_, ?_⟩
  · intro h
    simp [setPen, h]
  · intro h s hs
    simp only [setPen, h, hs, Bool.false_eq_true, if_false]
  · intro h hs st hst hne
    simp only [setPen, h, hs, hst, Bool.false_eq_true, if_false, hne]
  · intro h hs hall
    exact setPen_toPosition g b pen req h hs hall

/-- C9 witness: the precedence theorem applied at concrete requests: a
request carrying both `resetCounter` and position fields only zeroes the
counter, and a request carrying only a differing state only delegates to
the height controller. -/
theorem setPen_precedence_witness :
    setPen testGlobal testBot initialPen
        { resetCounter := true, simulation := none, state := some (.num (1/2)),
          x := some (.fin 10), y := some (.fin 10), park := false,
          ignoreTimeout := false } =
      { pen := { initialPen with distanceCounter := 0 }, cmds := [],
        outcome := .callback true } ∧
    setPen testGlobal testBot initialPen
        { resetCounter := false, simulation := none, state := some (.num (1/2)),
          x := some (.fin 10), y := some (.fin 10), park := false,
          ignoreTimeout := false } =
      { pen := initialPen, cmds := [], outcome := .heightDelegate (.num (1/2)) } :=
  ⟨(setPen_precedence testGlobal testBot initialPen _).1 rfl,
   (setPen_precedence testGlobal testBot initialPen _).2.2.1 rfl rfl (.num (1/2)) rfl
     (by simp [jsLooseEq, initialPen])⟩

/-! ## Claim C6 -/

/-- C6: a move request (one that reaches the position branch and carries an
x field) whose target x or y is NaN or non-finite fails: the callback is
invoked with false, the pen state is unchanged, and no command is issued. -/
theorem setPen_invalid_input (g : GlobalConf) (b : BotConf) (pen : Pen) (req : PenRequest)
    (hr : req.resetCounter = false) (hs : req.simulation = none)
    (hst : ∀ st, req.state = some st → jsLooseEq st pen.state = true)
    (hx : req.x ≠ none)
    (hbad : ∀ qx qy, ¬(req.x = some (.fin qx) ∧ req.y = some (.fin qy))) :
    setPen g b pen req = { pen := pen, cmds := [], outcome := .callback false } := by
  rw [setPen_toPosition g b pen req hr hs hst]
  cases hx2 : req.x with
  | none => exact absurd hx2 hx
  | some n =>
    cases n with
    | nan => simp [setPenPosition, hx2]
    | inf p => simp [setPenPosition, hx2]
    | fin q =>
      cases hy2 : req.y with
      | none => simp [setPenPosition, hx2, hy2]
      | some m =>
        cases m with
        | nan => simp [setPenPosition, hx2, hy2]
        | inf p => simp [setPenPosition, hx2, hy2]
        | fin qy => exact absurd ⟨hx2, hy2⟩ (hbad q qy)

/-- C6 witness: a request with x = NaN and a finite y fails with the pen
untouched and no command issued. -/
theorem setPen_invalid_input_witness :
    setPen testGlobal testBot initialPen
        { resetCounter := false, simulation := none, state := none,
          x := some .nan, y := some (.fin 10), park := false, ignoreTimeout := false } =
      { pen := initialPen, cmds := [], outcome := .callback false } :=
  setPen_invalid_input testGlobal testBot initialPen _ rfl rfl
    (by intro st h; simp at h) (by simp)
    (by intro qx qy h; simp at h)

/-! ## Claim C10 -/

/-- C10: a park request issued while the pen's logical position is already
(0,0) performs no move, issues no command, and invokes its completion
continuation with failure (false), not success. -/
theorem setPen_park_at_origin (g : GlobalConf) (b : BotConf) (pen : Pen) (req : PenRequest)
    (hr : req.resetCounter = false) (hs : req.simulation = none)
    (hst : ∀ st, req.state = some st → jsLooseEq st pen.state = true)
    (hx : req.x ≠ none) (hp : req.park = true)
    (h0x : pen.x = 0) (h0y : pen.y = 0) :
    setPen g b pen req = { pen := pen, cmds := [], outcome := .callback false } := by
  rw [setPen_toPosition g b pen req hr hs hst]
  cases hx2 : req.x with
  | none => exact absurd hx2 hx
  | some n =>
    cases n with
    | nan => simp [setPenPosition, hx2]
    | inf p => simp [setPenPosition, hx2]
    | fin q =>
      cases hy2 : req.y with
      | none => simp [setPenPosition, hx2, hy2]
      | some m =>
        cases m with
        | nan => simp [setPenPosition, hx2, hy2]
        | inf p => simp [setPenPosition, hx2, hy2]
        | fin qy => simp [setPenPosition, hx2, hy2, hp, h0x, h0y]

/-- C10 witness: the park theorem at the parked initial pen and the
standard park request (x = 0, y = 0, park set): the callback receives
false and nothing is issued. -/
theorem setPen_park_at_origin_witness :
    setPen testGlobal testBot initialPen
        { resetCounter := false, simulation := none, state := none,
          x := some (.fin 0), y := some (.fin 0), park := true,
          ignoreTimeout := false } =
      { pen := initialPen, cmds := [], outcome := .callback false } :=
  setPen_park_at_origin testGlobal testBot initialPen _ rfl rfl
    (by intro st h; simp at h) (by simp) rfl rfl rfl

/-! ## Claim C1 -/

/-- A raised pen exactly as `setHeight('up')` leaves it (e.g. after
parking): `pen.state` holds the preset-name string "up", the counter is
zero. -/
noncomputable def upPen : Pen :=
  { x := 0, y := 0, state := .str "up", height := 700, tool := "color0",
    lastDuration := 0, distanceCounter := 0, simulation := true }

/-- A plain position request to 3%, 4% of the test area (a 3-4-5 move). -/
def moveReq : PenRequest :=
  { resetCounter := false, simulation := none, state := none,
    x := some (.fin 3), y := some (.fin 4), park := false, ignoreTimeout := false }

/-- C1 failing run: with the pen raised — `pen.state` is the string "up",
exactly what `setHeight('up')` stores — a `setPen` move of Euclidean length
5 advances `distanceCounter` from 0 to 5, because the non-empty string
"up" is truthy in the `if (pen.state)` accumulation check (source line
532); the claim demands the counter be unchanged while the operating state
is 'up'. -/
theorem setPen_counts_distance_while_raised :
    jsTruthy upPen.state = true ∧ upPen.state = .str "up" ∧
    (setPen testGlobal testBot upPen moveReq).pen.distanceCounter = 5 := by
  refine ⟨rfl, rfl, ?_⟩
  rw [setPen_toPosition testGlobal testBot upPen moveReq rfl rfl
    (by intro st h; simp [moveReq] at h)]
  have habs : toAbsolute testBot 3 4 = ⟨3, 4⟩ := by
    norm_num [toAbsolute, testBot, sanitizePct, Point.mk.injEq]
  have hchange : moveChange testBot upPen ⟨3, 4⟩ = (3, 4) := by
    norm_num [moveChange, clampTarget, testBot, upPen, Prod.ext_iff]
  have hne : ¬((moveChange testBot upPen (⟨3, 4⟩ : Point)).1 = 0 ∧
      (moveChange testBot upPen (⟨3, 4⟩ : Point)).2 = 0) := by
    rw [hchange]
    simp
  have h5 : Real.sqrt 25 = 5 := by
    have e : (25 : ℝ) = (5 : ℝ) ^ 2 := by norm_num
    rw [e, Real.sqrt_sq (by norm_num : (0:ℝ) ≤ 5)]
  have hup : jsTruthy (JSVal.str "up") = true := rfl
  simp only [setPenPosition, moveReq, habs, Bool.false_eq_true, if_false]
  simp only [movePenAbs]
  rw [if_neg hne]
  rw [hchange]
  norm_num [hup, upPen]
  exact h5

end CNC
